import Mathlib

set_option maxRecDepth 10000
set_option maxHeartbeats 1000000

/-!
Verification of the swipe-file-scout repository: a shallow embedding of
`src/scout.py` (classifier, Reddit scorer/selector, digest formatting and
send fallback) and `src/google_alerts_monitor.py` (story store, story id
hashing, story analysis and processing), with theorems settling the frozen
claims about the natural-language specification.
-/

/-! ## String helpers (embedding Python string primitives) -/

/-- Python `str.lower()` restricted to its ASCII behaviour (all keyword
lists in the sources are ASCII). -/
def pyLower (s : String) : String :=
  String.mk (s.toList.map Char.toLower)

/-- Characters removed by Python `str.strip()` with no argument. -/
def pySpace (c : Char) : Bool :=
  c == ' ' || c == '\t' || c == '\n' || c == '\r' || c == '\x0b' || c == '\x0c'

/-- Python `str.strip()`. -/
def pyStrip (s : String) : String :=
  String.mk (((s.toList.dropWhile pySpace).reverse.dropWhile pySpace).reverse)

/-- `charsStart n h` holds when the character list `n` starts the list `h`. -/
def charsStart : List Char → List Char → Bool
  | [], _ => true
  | _ :: _, [] => false
  | a :: as, b :: bs => a == b && charsStart as bs

/-- `charsHave n h` holds when `n` occurs contiguously inside `h`. -/
def charsHave (n : List Char) : List Char → Bool
  | [] => charsStart n []
  | b :: bs => charsStart n (b :: bs) || charsHave n bs

/-- Python `needle in haystack` on strings (substring test). -/
def strContains (haystack needle : String) : Bool :=
  charsHave needle.toList haystack.toList

/-- Python `s.endswith(t)`. -/
def pyEndsWith (s t : String) : Bool :=
  charsStart t.toList.reverse s.toList.reverse

/-! ## Classifier (`classify_reddit_content` in `src/scout.py`) -/

def pain_indicators : List String :=
  ["why is it so hard", "why is it hard", "struggling to find", "can't find a job",
   "difficulty finding", "impossible to get", "no luck finding", "rejected from",
   "unemployment", "job search struggles", "been applying for months",
   "getting discouraged", "feeling stuck", "hard to find entry level",
   "entry level so hard", "no entry level jobs"]

def question_indicators : List String :=
  ["can i get", "should i", "is it worth", "how do i", "what do you think",
   "advice needed", "help me", "recommendations", "which course",
   "best way to", "how to start", "career switch at", "will this help"]

def coursera_success_keywords : List String :=
  ["coursera got me a job", "coursera helped me get hired", "coursera landed me",
   "google certificate got me hired", "google it support got me job",
   "coursera career change success", "got promoted after coursera"]

def coursera_terms : List String :=
  ["coursera", "google certificate", "google it support"]

def success_terms : List String :=
  ["got a job", "landed a job", "got hired", "job offer", "promotion"]

def completion_keywords : List String :=
  ["just completed coursera", "finished coursera course", "earned coursera certificate",
   "graduated from coursera", "completed andrew ng", "finished my coursera"]

/-- `classify_reddit_content(title, selftext="")` from `src/scout.py`:
ordered keyword checks returning `(category, confidence)`.  Pain and
question indicators are matched against the lowercased title; success and
completion keywords against the lowercased concatenation of title and
body. -/
def classify_reddit_content (title : String) (selftext : String := "") : String × Rat :=
  let combined := pyLower (title ++ " " ++ selftext)
  let title_lower := pyLower title
  if pain_indicators.any (fun i => strContains title_lower i) then
    ("pain_point", 0.95)
  else if question_indicators.any (fun i => strContains title_lower i) then
    ("motivation", 0.9)
  else if pyEndsWith (pyStrip title) "?" then
    ("motivation", 0.85)
  else if coursera_success_keywords.any (fun k => strContains combined k) then
    ("testimonial", 0.95)
  else if (coursera_terms.any (fun t => strContains combined t)) &&
          (success_terms.any (fun t => strContains combined t)) then
    ("testimonial", 0.8)
  else if completion_keywords.any (fun k => strContains combined k) then
    ("course_rec", 0.8)
  else
    ("motivation", 0.3)

theorem classify_scenario_pain :
    classify_reddit_content "Why is it so hard to find an entry-level job?" "" =
      ("pain_point", 0.95) := by with_unfolding_all decide

theorem classify_scenario_question :
    classify_reddit_content "Should I take the Google IT certificate" "" =
      ("motivation", 0.9) := by with_unfolding_all decide

theorem classify_scenario_testimonial :
    classify_reddit_content "Just got hired after finishing my course" "got a job thanks to coursera" =
      ("testimonial", 0.8) := by with_unfolding_all decide

/-! ## Reddit scorer and selector (`reddit_insight` in `src/scout.py`)

The network fetch and the VADER sentiment analyser are external
collaborators: the fetch is a parameter returning the post list of each
search, and the analyser is a parameter `senti` mapping a text to its
compound polarity score. -/

/-- A Reddit post record as read from the search response
(`data.get("title","")`, `data.get("selftext","")`, `data.get("ups",0)`). -/
structure RPost where
  title : String
  selftext : String
  ups : Nat
deriving DecidableEq

/-- One entry of the `searches` table in `reddit_insight`. -/
structure RSearch where
  subreddit : String
  query : String
  ty : String
  min_ups : Nat
  min_sentiment : Rat
deriving DecidableEq

/-- The literal `searches` list of `reddit_insight`. -/
def searches : List RSearch :=
  [⟨"Coursera", "got%20hired%20coursera|landed%20job%20coursera|coursera%20helped%20career",
    "testimonial", 3, 0.4⟩,
   ⟨"ITCareerQuestions", "google%20certificate%20hired|google%20it%20support%20job|coursera%20certificate%20job",
    "testimonial", 5, 0.3⟩,
   ⟨"ITCareerQuestions", "why%20is%20it%20so%20hard|can't%20find%20entry%20level|struggling%20find%20job",
    "pain_point", 50, -0.5⟩,
   ⟨"learnprogramming", "completed%20coursera|finished%20coursera|coursera%20certificate%20earned",
    "course_rec", 10, 0.3⟩]

/-- The `best_candidate` record built by `reddit_insight`. -/
structure RBest where
  data : RPost
  ty : String
  subreddit : String
  sentiment : Rat
  upvotes : Nat
  score : Rat
  confidence : Rat
deriving DecidableEq

/-- Words whose presence `reddit_insight` requires in a testimonial
candidate (`["coursera", "google certificate", "google it"]`). -/
def testimonial_mention_terms : List String :=
  ["coursera", "google certificate", "google it"]

/-- The score computed at lines 344-349 of `src/scout.py`:
`score = ups * confidence`, `*= 10` for testimonial searches, `*= 3`
for pain-point searches. -/
def insight_score (s : RSearch) (ups : Nat) (conf : Rat) : Rat :=
  let score0 := (ups : Rat) * conf
  if s.ty = "testimonial" then score0 * 10
  else if s.ty = "pain_point" then score0 * 3
  else score0

/-- The body of the per-post loop of `reddit_insight`: classification
check, confidence check, upvote and sentiment thresholds, the
Coursera-mention check for testimonials, the score computation, and the
strict best-score update. -/
def insight_step (senti : String → Rat) (s : RSearch)
    (st : Rat × Option RBest) (p : RPost) : Rat × Option RBest :=
  let ac := classify_reddit_content p.title p.selftext
  if ac.1 ≠ s.ty then st
  else if ac.2 < 0.7 then st
  else if p.ups < s.min_ups then st
  else
    let combined := p.title ++ " " ++ p.selftext
    let sentiment := senti combined
    if sentiment < s.min_sentiment then st
    else if s.ty = "testimonial" &&
        !(testimonial_mention_terms.any (fun w => strContains (pyLower combined) w)) then st
    else
      let score := insight_score s p.ups ac.2
      if score > st.1 then (score, some ⟨p, ac.1, s.subreddit, sentiment, p.ups, score, ac.2⟩)
      else st

/-- The double loop of `reddit_insight`: every search in `searches` is
run (a failing request contributes an empty post list), starting from
`best_score = 0`, `best_candidate = None`. -/
def insight_run (senti : String → Rat) (fetch : RSearch → List RPost) :
    Rat × Option RBest :=
  searches.foldl (fun st s => (fetch s).foldl (insight_step senti s) st) (0, none)

/-! ## Completion-story scorer (`reddit_story` in `src/scout.py`) -/

def story_queries : List String :=
  ["coursera%20completed%20specialization", "finished%20coursera%20course",
   "earned%20coursera%20certificate", "graduated%20coursera%20program"]

/-- Words that make `reddit_story` reject a title as a question. -/
def story_reject_words : List String :=
  ["can i", "should i", "how do", "advice"]

/-- Completion words that triple the `reddit_story` score. -/
def completion_words : List String :=
  ["completed", "finished", "earned", "graduated"]

/-- The score computed at lines 462-468 of `src/scout.py`:
`score = ups * sentiment * confidence`, tripled when a completion word
occurs in the combined text. -/
def story_score (senti : String → Rat) (p : RPost) : Rat :=
  let ac := classify_reddit_content p.title p.selftext
  let combined := p.title ++ " " ++ p.selftext
  let score0 := (p.ups : Rat) * senti combined * ac.2
  if completion_words.any (fun w => strContains (pyLower combined) w) then score0 * 3
  else score0

/-- The body of the per-post loop of `reddit_story`: classification
filter, question rejection, `ups >= 3 and sentiment > 0.1` thresholds,
the score computation, and the strict best-score update. -/
def story_step (senti : String → Rat) (st : Rat × Option RPost) (p : RPost) :
    Rat × Option RPost :=
  let ac := classify_reddit_content p.title p.selftext
  if !(ac.1 == "course_rec" || ac.1 == "testimonial") || ac.2 < 0.6 then st
  else if pyEndsWith (pyStrip p.title) "?" ||
      story_reject_words.any (fun w => strContains (pyLower p.title) w) then st
  else
    let sentiment := senti (p.title ++ " " ++ p.selftext)
    if p.ups ≥ 3 && sentiment > 0.1 then
      let score := story_score senti p
      if score > st.1 then (score, some p) else st
    else st

/-- The query loop of `reddit_story`, starting from
`best_score = 0`, `best_post = None`. -/
def story_run (senti : String → Rat) (fetch : String → List RPost) :
    Rat × Option RPost :=
  story_queries.foldl (fun st q => (fetch q).foldl (story_step senti) st) (0, none)

/-- The category weight effectively applied by `reddit_insight`
(times 10 for testimonials, times 3 for pain points, otherwise 1). -/
def tyWeight (ty : String) : Rat :=
  if ty = "testimonial" then 10 else if ty = "pain_point" then 3 else 1

/-! ## The spec's score formula (for comparison with the code)

Modelled from the spec: section 4.2 gives
`score = upvotes_or_impressions * confidence * category_weight *
sentiment_bonus * recency_bonus` with a staged sentiment bonus
(`>0.5 → 1.8x; >0.3 → 1.4x; else 1x`) and a recency bonus
(under 7 days → 1.3x, under 30 days → 1.1x, otherwise none).
No such formula occurs in the sources; these definitions transcribe the
spec's words so they can be compared against the code's scorer. -/

/-- Modelled from the spec: the staged sentiment bonus of section 4.2. -/
def spec_sentiment_bonus (s : Rat) : Rat :=
  if s > 0.5 then 1.8 else if s > 0.3 then 1.4 else 1

/-- Modelled from the spec: the recency bonus of section 4.2. -/
def spec_recency_bonus (ageDays : Nat) : Rat :=
  if ageDays < 7 then 1.3 else if ageDays < 30 then 1.1 else 1

/-- Modelled from the spec: the full score formula of section 4.2. -/
def spec_score (ups conf weight sentiment : Rat) (ageDays : Nat) : Rat :=
  ups * conf * weight * spec_sentiment_bonus sentiment * spec_recency_bonus ageDays

/-! ## Credential checks of the fetchers (`meta_ad`, `reddit_insight`,
`reddit_story` in `src/scout.py`)

Each fetcher first inspects its environment credentials and returns early
when they are missing; everything after the credential check is a network
interaction abstracted as a parameter `net`. The `safe_api_call` wrapper
returns the inner result unchanged on these exception-free paths. -/

/-- The literal string returned by `_fetch_meta_ads` when `FB_TOKEN`
is absent or blank. -/
def meta_pending_msg : String :=
  "❌ META AD LIBRARY ACCESS PENDING\n\n   FB_TOKEN found but requires approval\n   Status: developers.facebook.com/tools/explorer\n   Typical approval: 1-3 business days"

/-- `_fetch_meta_ads`: `token = os.environ.get("FB_TOKEN", "").strip();
if not token: return <pending message>`, then the network part. -/
def fetch_meta_ads (fb_token : String) (net : String → Option String) : Option String :=
  let token := pyStrip fb_token
  if token = "" then some meta_pending_msg else net token

/-- `_fetch_reddit_insights`: stripped `REDDIT_ID`/`REDDIT_SECRET`;
`if not (client_id and client_secret): return None`, then the network part. -/
def fetch_reddit_insights (reddit_id reddit_secret : String)
    (net : String → String → Option String) : Option String :=
  let cid := pyStrip reddit_id
  let csec := pyStrip reddit_secret
  if cid = "" || csec = "" then none else net cid csec

/-- `_fetch_reddit_story`: unstripped `REDDIT_ID`/`REDDIT_SECRET`;
`if not client_id or not client_secret: return None`, then the network part. -/
def fetch_reddit_story (reddit_id reddit_secret : String)
    (net : String → String → Option String) : Option String :=
  if reddit_id = "" || reddit_secret = "" then none else net reddit_id reddit_secret

/-! ## Digest formatting and sending (`format_digest`, `main` in `src/scout.py`) -/

/-- The three lines inserted between consecutive blocks by `format_digest`. -/
def sep_lines : List String :=
  ["", "**————————————————————**", ""]

/-- Blocks after the first, each preceded by the separator lines. -/
def format_rest : List String → List String
  | [] => []
  | b :: rest => sep_lines ++ b :: format_rest rest

/-- `format_digest(blocks)`: drop falsy sections, return `None` when
nothing remains, otherwise join the blocks (with separators) by newlines. -/
def format_digest (blocks : List (Option String)) : Option String :=
  match (blocks.filterMap id).filter (fun s => s != "") with
  | [] => none
  | b :: rest => some (String.intercalate "\n" (b :: format_rest rest))

/-- The literal fallback digest of `main`. -/
def fallback_digest : String :=
  "*🔄 Fallback Insight*\n• **Check API credentials and try again**\n• **Focus on testimonial-driven video ads**"

/-- `main`'s digest selection: `digest = format_digest(blocks)` replaced
by the fallback string when falsy. -/
def main_digest (blocks : List (Option String)) : String :=
  match format_digest blocks with
  | none => fallback_digest
  | some d => if d == "" then fallback_digest else d

/-- Observable outcomes of the two send channels during one run:
`slack_ok` is the value of `send_slack(msg)` (false when the webhook is
unconfigured or the POST does not return 200), `email_ok` likewise for
`send_email(msg)`. -/
structure SendEnv where
  slack_ok : Bool
  email_ok : Bool

/-- Which channels `main`'s send step invokes and what it delivers. -/
structure SendTrace where
  slack_attempted : Bool
  email_attempted : Bool
  delivered : Option String
deriving DecidableEq

/-- `main`'s send step: `if send_slack(m): ... elif send_email(m): ...
else: <error>` — Slack is always attempted first, email exactly when
the Slack send returned false. -/
def main_send (env : SendEnv) : SendTrace :=
  if env.slack_ok then ⟨true, false, some "slack"⟩
  else if env.email_ok then ⟨true, true, some "email"⟩
  else ⟨true, true, none⟩

/-! ## MD5 (`hashlib.md5`, used by `create_story_id` in
`src/google_alerts_monitor.py`)

A standard MD5 over byte lists (RFC 1321), validated below against the
reference digests of `""` and `"abc"`. -/

/-- Per-round left-rotation amounts. -/
def md5_s : List Nat :=
  [7, 12, 17, 22, 7, 12, 17, 22, 7, 12, 17, 22, 7, 12, 17, 22,
   5, 9, 14, 20, 5, 9, 14, 20, 5, 9, 14, 20, 5, 9, 14, 20,
   4, 11, 16, 23, 4, 11, 16, 23, 4, 11, 16, 23, 4, 11, 16, 23,
   6, 10, 15, 21, 6, 10, 15, 21, 6, 10, 15, 21, 6, 10, 15, 21]

/-- Per-round additive constants (`floor(abs(sin(i+1)) * 2^32)`). -/
def md5_k : List Nat :=
  [0xd76aa478, 0xe8c7b756, 0x242070db, 0xc1bdceee,
   0xf57c0faf, 0x4787c62a, 0xa8304613, 0xfd469501,
   0x698098d8, 0x8b44f7af, 0xffff5bb1, 0x895cd7be,
   0x6b901122, 0xfd987193, 0xa679438e, 0x49b40821,
   0xf61e2562, 0xc040b340, 0x265e5a51, 0xe9b6c7aa,
   0xd62f105d, 0x02441453, 0xd8a1e681, 0xe7d3fbc8,
   0x21e1cde6, 0xc33707d6, 0xf4d50d87, 0x455a14ed,
   0xa9e3e905, 0xfcefa3f8, 0x676f02d9, 0x8d2a4c8a,
   0xfffa3942, 0x8771f681, 0x6d9d6122, 0xfde5380c,
   0xa4beea44, 0x4bdecfa9, 0xf6bb4b60, 0xbebfbc70,
   0x289b7ec6, 0xeaa127fa, 0xd4ef3085, 0x04881d05,
   0xd9d4d039, 0xe6db99e5, 0x1fa27cf8, 0xc4ac5665,
   0xf4292244, 0x432aff97, 0xab9423a7, 0xfc93a039,
   0x655b59c3, 0x8f0ccc92, 0xffeff47d, 0x85845dd1,
   0x6fa87e4f, 0xfe2ce6e0, 0xa3014314, 0x4e0811a1,
   0xf7537e82, 0xbd3af235, 0x2ad7d2bb, 0xeb86d391]

def mask32 : Nat := 4294967295

/-- Bitwise complement on 32 bits. -/
def not32 (x : Nat) : Nat := mask32 ^^^ x

/-- Left rotation on 32 bits. -/
def rotl32 (x s : Nat) : Nat := ((x <<< s) ||| (x >>> (32 - s))) &&& mask32

/-- Little-endian word from the first four bytes of a list. -/
def le_word : List Nat → Nat
  | b0 :: b1 :: b2 :: b3 :: _ => b0 + 256 * b1 + 65536 * b2 + 16777216 * b3
  | _ => 0

/-- The `g`-th message word of a 64-byte chunk. -/
def chunk_word (chunk : List Nat) (g : Nat) : Nat := le_word (chunk.drop (4 * g))

/-- Round function value and message-word index for round `i`. -/
def md5_fg (i b c d : Nat) : Nat × Nat :=
  if i < 16 then ((b &&& c) ||| (not32 b &&& d), i)
  else if i < 32 then ((d &&& b) ||| (not32 d &&& c), (5 * i + 1) % 16)
  else if i < 48 then (b ^^^ c ^^^ d, (3 * i + 5) % 16)
  else (c ^^^ (b ||| not32 d), (7 * i) % 16)

/-- One MD5 round. -/
def md5_round (chunk : List Nat) (st : Nat × Nat × Nat × Nat) (i : Nat) :
    Nat × Nat × Nat × Nat :=
  let fg := md5_fg i st.2.1 st.2.2.1 st.2.2.2
  let f := (fg.1 + st.1 + md5_k.getD i 0 + chunk_word chunk fg.2) &&& mask32
  (st.2.2.2, (st.2.1 + rotl32 f (md5_s.getD i 0)) &&& mask32, st.2.1, st.2.2.1)

/-- Process one 64-byte chunk. -/
def md5_chunk (st : Nat × Nat × Nat × Nat) (chunk : List Nat) :
    Nat × Nat × Nat × Nat :=
  let r := (List.range 64).foldl (md5_round chunk) st
  ((st.1 + r.1) &&& mask32, (st.2.1 + r.2.1) &&& mask32,
   (st.2.2.1 + r.2.2.1) &&& mask32, (st.2.2.2 + r.2.2.2) &&& mask32)

/-- MD5 padding: `0x80`, zeros to 56 mod 64, 64-bit little-endian bit length. -/
def md5_pad (msg : List Nat) : List Nat :=
  let len := msg.length
  let padZeros := (120 - (len + 1) % 64) % 64
  let bitLen := (8 * len) % 18446744073709551616
  msg ++ 128 :: List.replicate padZeros 0 ++
    [bitLen &&& 255, (bitLen >>> 8) &&& 255, (bitLen >>> 16) &&& 255,
     (bitLen >>> 24) &&& 255, (bitLen >>> 32) &&& 255, (bitLen >>> 40) &&& 255,
     (bitLen >>> 48) &&& 255, (bitLen >>> 56) &&& 255]

/-- Split a list into 64-byte chunks (fuel-driven, fuel = list length). -/
def chunks64 : Nat → List Nat → List (List Nat)
  | 0, _ => []
  | _, [] => []
  | fuel + 1, a :: l => (a :: l).take 64 :: chunks64 fuel ((a :: l).drop 64)

def md5_init : Nat × Nat × Nat × Nat :=
  (0x67452301, 0xefcdab89, 0x98badcfe, 0x10325476)

/-- MD5 state after absorbing a whole message. -/
def md5_state (msg : List Nat) : Nat × Nat × Nat × Nat :=
  let padded := md5_pad msg
  (chunks64 padded.length padded).foldl md5_chunk md5_init

/-- Little-endian bytes of a 32-bit word. -/
def le_bytes (w : Nat) : List Nat :=
  [w &&& 255, (w >>> 8) &&& 255, (w >>> 16) &&& 255, (w >>> 24) &&& 255]

/-- The 16-byte MD5 digest. -/
def md5_digest (msg : List Nat) : List Nat :=
  let st := md5_state msg
  le_bytes st.1 ++ le_bytes st.2.1 ++ le_bytes st.2.2.1 ++ le_bytes st.2.2.2

/-- Lowercase hexadecimal digit. -/
def hexDigitChar (n : Nat) : Char :=
  if n < 10 then Char.ofNat (48 + n) else Char.ofNat (87 + n)

/-- Two lowercase hex characters per byte. -/
def hexChars : List Nat → List Char
  | [] => []
  | b :: bs => hexDigitChar (b / 16) :: hexDigitChar (b % 16) :: hexChars bs

/-- UTF-8 encoding of one character. -/
def utf8Enc (c : Char) : List Nat :=
  let n := c.toNat
  if n < 128 then [n]
  else if n < 2048 then [192 + n / 64, 128 + n % 64]
  else if n < 65536 then [224 + n / 4096, 128 + (n / 64) % 64, 128 + n % 64]
  else [240 + n / 262144, 128 + (n / 4096) % 64, 128 + (n / 64) % 64, 128 + n % 64]

/-- Python `s.encode()` (UTF-8 bytes of a string). -/
def utf8Bytes (s : String) : List Nat :=
  s.toList.foldr (fun c acc => utf8Enc c ++ acc) []

/-- Python `hashlib.md5(s.encode()).hexdigest()`. -/
def md5_hexdigest (s : String) : String := String.mk (hexChars (md5_digest (utf8Bytes s)))

theorem md5_ref_empty :
    md5_hexdigest "" = "d41d8cd98f00b204e9800998ecf8427e" := by with_unfolding_all decide

theorem md5_ref_abc :
    md5_hexdigest "abc" = "900150983cd24fb0d6963f7d28e17f72" := by with_unfolding_all decide

/-! ## Google Alerts monitor (`src/google_alerts_monitor.py`)

Gmail/IMAP fetching is an external collaborator: the extracted LinkedIn
links of the alert emails enter the model as data. -/

/-- A LinkedIn link extracted from an alert email
(`{'url': ..., 'text': ...}`; the constant `found_in_alert` flag is
omitted). -/
structure LinkData where
  url : String
  text : String
deriving DecidableEq

/-- One processed alert email: subject, date and its extracted links. -/
structure EmailInfo where
  subject : String
  date : String
  links : List LinkData
deriving DecidableEq

/-- A story record as stored in `linkedin_success_stories.json`. -/
structure Story where
  id : String
  url : String
  text : String
  story_score : Nat
  signals : List String
  found_date : String
  alert_subject : String
  alert_date : String
  outreach_status : String
deriving DecidableEq

/-- The persisted stories file content. -/
structure StoriesData where
  stories : List Story
  last_processed : Option String
  total_links_processed : Option Nat
deriving DecidableEq

/-- `load_existing_stories`: read the JSON file when it exists, fall back
to `{"stories": [], "last_processed": None}` when it is absent or
unreadable.  The stored content (`none` when the file is missing or
malformed) is passed in as data. -/
def load_existing_stories (file : Option StoriesData) : StoriesData :=
  match file with
  | some d => d
  | none => ⟨[], none, none⟩

/-- The `high_value_keywords` table, in dict insertion order. -/
def high_value_keywords : List (String × List String) :=
  [("career_transformation",
    ["career change", "switched careers", "new career", "transitioned to", "career pivot"]),
   ("job_success",
    ["landed a job", "got hired", "new position", "job offer", "started working"]),
   ("promotion",
    ["promoted to", "got promoted", "promotion", "new role as"]),
   ("salary_impact",
    ["salary increase", "raise", "doubled my income", "better pay", "higher salary"]),
   ("gratitude",
    ["grateful for", "thankful", "changed my life", "couldn't have done it without"]),
   ("coursera_specific",
    ["coursera certificate", "google certificate", "coursera course", "andrew ng"])]

/-- Points and signal label per keyword category (the `if/elif` chain in
`analyze_story_potential`). -/
def signal_for (category keyword : String) : Nat × Option String :=
  if category = "career_transformation" then (20, some ("CAREER_CHANGE: " ++ keyword))
  else if category = "job_success" then (15, some ("JOB_SUCCESS: " ++ keyword))
  else if category = "promotion" then (15, some ("PROMOTION: " ++ keyword))
  else if category = "salary_impact" then (12, some ("SALARY: " ++ keyword))
  else if category = "gratitude" then (10, some ("GRATITUDE: " ++ keyword))
  else if category = "coursera_specific" then (8, some ("COURSERA: " ++ keyword))
  else (0, none)

/-- `analyze_story_potential(link_data)`: each category contributes at
most once (the inner loop `break`s at the first matching keyword), then
a 5-point bonus for LinkedIn post/feed URLs. -/
def analyze_story_potential (link : LinkData) : Nat × List String :=
  let text := pyLower link.text
  let url := link.url
  let base := high_value_keywords.foldl
    (fun acc cat =>
      match cat.2.find? (fun k => strContains text k) with
      | some k =>
        let sg := signal_for cat.1 k
        (acc.1 + sg.1, match sg.2 with | some l => acc.2 ++ [l] | none => acc.2)
      | none => acc)
    (0, [])
  if strContains url "/posts/" || strContains url "/feed/" then
    (base.1 + 5, base.2 ++ ["LINKEDIN_POST"])
  else base

/-- `create_story_id(link_data)`:
`hashlib.md5(f"{url}_{text}".encode()).hexdigest()[:16]`. -/
def create_story_id (link : LinkData) : String :=
  String.mk ((hexChars (md5_digest (utf8Bytes (link.url ++ "_" ++ link.text)))).take 16)

/-- Insert-or-replace into the id-keyed story dict
(`existing_stories[story_id] = story`), preserving insertion order. -/
def dinsert (s : Story) (d : List Story) : List Story :=
  if d.any (fun t => t.id == s.id) then d.map (fun t => if t.id == s.id then s else t)
  else d ++ [s]

/-- `story_id in existing_stories`. -/
def hasId (d : List Story) (i : String) : Bool :=
  d.any (fun t => t.id == i)

/-- The mutable state of the `process_new_stories` loops. -/
structure PState where
  existing : List Story
  new : List Story
  processed : Nat
deriving DecidableEq

/-- The per-link body of `process_new_stories`: count the link, skip it
when its id is already known, otherwise analyze it and record it (in
`new_stories` and the dict) exactly when its score is at least 15. -/
def link_step (now subject adate : String) (st : PState) (link : LinkData) : PState :=
  let st := { st with processed := st.processed + 1 }
  let story_id := create_story_id link
  if hasId st.existing story_id then st
  else
    let sg := analyze_story_potential link
    if 15 ≤ sg.1 then
      let story : Story :=
        ⟨story_id, link.url, link.text, sg.1, sg.2, now, subject, adate, "pending"⟩
      { st with new := st.new ++ [story], existing := dinsert story st.existing }
    else st

/-- The per-email loop of `process_new_stories`. -/
def email_step (now : String) (st : PState) (e : EmailInfo) : PState :=
  e.links.foldl (link_step now e.subject e.date) st

/-- `process_new_stories`: build the id-keyed dict from the loaded
stories, process every link of every fetched email, then write back the
dict values together with the bookkeeping fields.  `now` stands for
`datetime.datetime.now().isoformat()`. -/
def process_new_stories (store : StoriesData) (emails : List EmailInfo) (now : String) :
    List Story × StoriesData :=
  let d0 := store.stories.foldl (fun d s => dinsert s d) []
  let st := emails.foldl (email_step now) ⟨d0, [], 0⟩
  (st.new, ⟨st.existing, some now, some st.processed⟩)

/-! ## Helper lemmas -/

/-- Invariants preserved by every step of a fold hold of its result. -/
theorem foldl_induct {α β : Type} (P : β → Prop) (f : β → α → β) :
    ∀ (l : List α) (b : β), P b → (∀ x ∈ l, ∀ y, P y → P (f y x)) → P (l.foldl f b)
  | [], _, hb, _ => hb
  | x :: l, b, hb, hstep =>
    foldl_induct P f l (f b x) (hstep x (by simp) b hb)
      (fun a ha y hy => hstep a (List.mem_cons_of_mem x ha) y hy)

theorem hasId_dinsert_self (s : Story) (d : List Story) :
    hasId (dinsert s d) s.id = true := by
  unfold dinsert
  by_cases hc : d.any (fun t => t.id == s.id) = true
  · simp only [hc, if_true, hasId, List.any_eq_true]
    obtain ⟨t, ht, htid⟩ := List.any_eq_true.mp hc
    refine ⟨s, List.mem_map.mpr ⟨t, ht, ?_⟩, by simp⟩
    simp [htid]
  · simp only [hc, if_false, hasId, List.any_eq_true, Bool.not_eq_true]
    exact ⟨s, by simp, by simp⟩

theorem hasId_dinsert_mono (s : Story) (d : List Story) (i : String)
    (h : hasId d i = true) : hasId (dinsert s d) i = true := by
  unfold dinsert
  obtain ⟨t, ht, hti⟩ := List.any_eq_true.mp h
  by_cases hc : d.any (fun t => t.id == s.id) = true
  · simp only [hc, if_true, hasId, List.any_eq_true]
    by_cases hts : (t.id == s.id) = true
    · refine ⟨s, List.mem_map.mpr ⟨t, ht, by simp [hts]⟩, ?_⟩
      have h1 : t.id = s.id := by simpa using hts
      have h2 : t.id = i := by simpa using hti
      simp [← h1, h2]
    · exact ⟨t, List.mem_map.mpr ⟨t, ht, by simp [hts]⟩, hti⟩
  · simp only [hc, if_false, hasId, List.any_eq_true]
    exact ⟨t, List.mem_append_left _ ht, hti⟩

theorem mem_dinsert {t s : Story} {d : List Story} (h : t ∈ dinsert s d) :
    t ∈ d ∨ t = s := by
  unfold dinsert at h
  by_cases hc : d.any (fun u => u.id == s.id) = true
  · simp only [hc, if_true] at h
    obtain ⟨u, hu, hut⟩ := List.mem_map.mp h
    by_cases hus : (u.id == s.id) = true
    · right; simp [hus] at hut; exact hut.symm
    · left; simp [hus] at hut; exact hut ▸ hu
  · simp only [hc, if_false] at h
    rcases List.mem_append.mp h with h1 | h1
    · exact Or.inl h1
    · exact Or.inr (by simpa using h1)

theorem hasId_foldl_dinsert_mono (l : List Story) (acc : List Story) (i : String)
    (h : hasId acc i = true) :
    hasId (l.foldl (fun d s => dinsert s d) acc) i = true := by
  induction l generalizing acc with
  | nil => simpa using h
  | cons s l ih => exact ih (dinsert s acc) (hasId_dinsert_mono s acc i h)

theorem hasId_foldl_dinsert_of_mem (l : List Story) (acc : List Story) (s : Story)
    (hs : s ∈ l) :
    hasId (l.foldl (fun d s => dinsert s d) acc) s.id = true := by
  induction l generalizing acc with
  | nil => cases hs
  | cons u l ih =>
    rcases List.mem_cons.mp hs with h1 | h1
    · subst h1
      exact hasId_foldl_dinsert_mono l (dinsert s acc) s.id (hasId_dinsert_self s acc)
    · exact ih (dinsert u acc) h1

theorem mem_foldl_dinsert (l : List Story) (acc : List Story) (t : Story)
    (h : t ∈ l.foldl (fun d s => dinsert s d) acc) : t ∈ acc ∨ t ∈ l := by
  induction l generalizing acc with
  | nil => exact Or.inl (by simpa using h)
  | cons s l ih =>
    rcases ih (dinsert s acc) h with h1 | h1
    · rcases mem_dinsert h1 with h2 | h2
      · exact Or.inl h2
      · exact Or.inr (by simp [h2])
    · exact Or.inr (List.mem_cons_of_mem s h1)

/-- What is true of every candidate that `reddit_insight` stores as
`best_candidate`: it survived the threshold checks of the search that
produced it, and its score is upvotes times confidence times the
category weight. -/
def insight_good (c : RBest) : Prop :=
  (∃ s ∈ searches, c.ty = s.ty ∧ s.min_ups ≤ c.upvotes ∧ s.min_sentiment ≤ c.sentiment) ∧
  c.score = (c.upvotes : Rat) * c.confidence * tyWeight c.ty

theorem insight_score_eq (s : RSearch) (ups : Nat) (conf : Rat) :
    insight_score s ups conf = (ups : Rat) * conf * tyWeight s.ty := by
  simp only [insight_score, tyWeight]
  split_ifs <;> ring

theorem insight_step_good (senti : String → Rat) (s : RSearch) (hs : s ∈ searches)
    (st : Rat × Option RBest) (p : RPost)
    (h : ∀ c, st.2 = some c → insight_good c) :
    ∀ c, (insight_step senti s st p).2 = some c → insight_good c := by
  intro c hc
  simp only [insight_step] at hc
  split at hc
  · exact h c hc
  split at hc
  · exact h c hc
  split at hc
  · exact h c hc
  split at hc
  · exact h c hc
  split at hc
  · exact h c hc
  split at hc
  case _ hty hconf hups hsent hmention hbest =>
    cases hc
    constructor
    · exact ⟨s, hs, not_not.mp hty, Nat.not_lt.mp hups, not_lt.mp hsent⟩
    · have hty' : (classify_reddit_content p.title p.selftext).1 = s.ty := not_not.mp hty
      simp only [insight_score_eq, hty']
  · exact h c hc

theorem insight_run_good (senti : String → Rat) (fetch : RSearch → List RPost) :
    ∀ c, (insight_run senti fetch).2 = some c → insight_good c := by
  unfold insight_run
  exact foldl_induct (fun st => ∀ c, st.2 = some c → insight_good c) _ searches (0, none)
    (fun c hc => by cases hc)
    (fun s hs st hst =>
      foldl_induct (fun st => ∀ c, st.2 = some c → insight_good c) _ (fetch s) st hst
        (fun p _ st' hst' => insight_step_good senti s hs st' p hst'))

/-- What is true of the pair `(best_score, best_post)` kept by
`reddit_story`: when a post is stored, the stored score is upvotes times
sentiment times confidence, tripled exactly when a completion word
occurs in the combined text. -/
def story_inv (senti : String → Rat) (st : Rat × Option RPost) : Prop :=
  ∀ q, st.2 = some q → st.1 = story_score senti q

theorem story_step_inv (senti : String → Rat) (st : Rat × Option RPost) (p : RPost)
    (h : story_inv senti st) : story_inv senti (story_step senti st p) := by
  have hstep : ∀ r, story_step senti st p = r → story_inv senti r := by
    intro r hr
    simp only [story_step] at hr
    split at hr
    · exact hr ▸ h
    split at hr
    · exact hr ▸ h
    split at hr
    · split at hr
      · intro q hq
        rw [← hr] at hq ⊢
        simp only [Option.some.injEq] at hq
        rw [← hq]
      · exact hr ▸ h
    · exact hr ▸ h
  exact hstep _ rfl

theorem story_run_inv (senti : String → Rat) (fetch : String → List RPost) :
    story_inv senti (story_run senti fetch) := by
  unfold story_run
  exact foldl_induct (story_inv senti) _ story_queries (0, none)
    (fun q hq => by cases hq)
    (fun qu _ st hst =>
      foldl_induct (story_inv senti) _ (fetch qu) st hst
        (fun p _ st' hst' => story_step_inv senti st' p hst'))

/-- Invariant of the `process_new_stories` loops behind claim C10: every
stored id stays in the dict, and every dict entry either came from the
store or is a newly analyzed story that scored at least 15. -/
def grow_inv (store : StoriesData) (st : PState) : Prop :=
  (∀ s ∈ store.stories, hasId st.existing s.id = true) ∧
  (∀ t ∈ st.existing, t ∈ store.stories ∨
    (15 ≤ t.story_score ∧ t.story_score = (analyze_story_potential ⟨t.url, t.text⟩).1))

theorem link_step_grow (store : StoriesData) (now subject adate : String)
    (st : PState) (link : LinkData) (h : grow_inv store st) :
    grow_inv store (link_step now subject adate st link) := by
  simp only [link_step]
  split
  · exact h
  split
  case _ hseen hscore =>
    constructor
    · intro s hs
      exact hasId_dinsert_mono _ _ _ (h.1 s hs)
    · intro t ht
      rcases mem_dinsert ht with h1 | h1
      · exact h.2 t h1
      · subst h1
        exact Or.inr ⟨hscore, rfl⟩
  · exact h

/-- Invariant of the `process_new_stories` loops behind claim C7 (first
half): every story appended to `new_stories` has its id recorded in the
dict. -/
def marked_inv (st : PState) : Prop :=
  ∀ s ∈ st.new, hasId st.existing s.id = true

theorem link_step_marked (now subject adate : String) (st : PState) (link : LinkData)
    (h : marked_inv st) : marked_inv (link_step now subject adate st link) := by
  simp only [link_step]
  split
  · exact h
  split
  · intro s hs
    rcases List.mem_append.mp hs with h1 | h1
    · exact hasId_dinsert_mono _ _ _ (h s h1)
    · have h2 : s = ⟨create_story_id link, link.url, link.text,
        (analyze_story_potential link).1, (analyze_story_potential link).2,
        now, subject, adate, "pending"⟩ := by simpa using h1
      subst h2
      exact hasId_dinsert_self _ _
  · exact h

/-- Invariant of the `process_new_stories` loops behind claim C7 (second
half): once an id is in the dict, no story with that id is ever appended
to `new_stories`. -/
def excl_inv (i : String) (st : PState) : Prop :=
  hasId st.existing i = true ∧ ∀ t ∈ st.new, t.id ≠ i

theorem link_step_excl (i : String) (now subject adate : String) (st : PState)
    (link : LinkData) (h : excl_inv i st) :
    excl_inv i (link_step now subject adate st link) := by
  simp only [link_step]
  split
  · exact h
  split
  case _ hseen hscore =>
    refine ⟨hasId_dinsert_mono _ _ _ h.1, ?_⟩
    intro t ht
    rcases List.mem_append.mp ht with h1 | h1
    · exact h.2 t h1
    · have h2 : t = ⟨create_story_id link, link.url, link.text,
        (analyze_story_potential link).1, (analyze_story_potential link).2,
        now, subject, adate, "pending"⟩ := by simpa using h1
      subst h2
      intro hcontra
      have h3 : create_story_id link = i := hcontra
      exact hseen (h3 ▸ h.1)
  · exact h

theorem process_grow (store : StoriesData) (emails : List EmailInfo) (now : String) :
    grow_inv store (emails.foldl (email_step now)
      ⟨store.stories.foldl (fun d s => dinsert s d) [], [], 0⟩) := by
  refine foldl_induct (grow_inv store) _ emails _ ⟨?_, ?_⟩ ?_
  · intro s hs
    exact hasId_foldl_dinsert_of_mem _ _ s hs
  · intro t ht
    rcases mem_foldl_dinsert _ _ t ht with h1 | h1
    · cases h1
    · exact Or.inl h1
  · intro e _ st hst
    exact foldl_induct (grow_inv store) _ e.links st hst
      (fun l _ st' hst' => link_step_grow store now e.subject e.date st' l hst')

theorem process_marked (d0 : List Story) (emails : List EmailInfo) (now : String) :
    marked_inv (emails.foldl (email_step now) ⟨d0, [], 0⟩) := by
  refine foldl_induct marked_inv _ emails _ (fun s hs => by cases hs) ?_
  intro e _ st hst
  exact foldl_induct marked_inv _ e.links st hst
    (fun l _ st' hst' => link_step_marked now e.subject e.date st' l hst')

theorem process_excl (i : String) (d0 : List Story) (emails : List EmailInfo)
    (now : String) (h0 : hasId d0 i = true) :
    excl_inv i (emails.foldl (email_step now) ⟨d0, [], 0⟩) := by
  refine foldl_induct (excl_inv i) _ emails _ ⟨h0, fun t ht => by cases ht⟩ ?_
  intro e _ st hst
  exact foldl_induct (excl_inv i) _ e.links st hst
    (fun l _ st' hst' => link_step_excl i now e.subject e.date st' l hst')

/-- A pain indicator in the lowercased title forces the pain-point
classification (it is the first rule checked). -/
theorem classify_of_pain (title selftext : String)
    (h : pain_indicators.any (fun i => strContains (pyLower title) i) = true) :
    classify_reddit_content title selftext = ("pain_point", 0.95) := by
  simp [classify_reddit_content, h]

/-- With no pain indicator in the title, a question indicator in the
lowercased title forces the motivation classification. -/
theorem classify_of_question (title selftext : String)
    (hq : question_indicators.any (fun i => strContains (pyLower title) i) = true)
    (hp : pain_indicators.any (fun i => strContains (pyLower title) i) = false) :
    classify_reddit_content title selftext = ("motivation", 0.9) := by
  simp [classify_reddit_content, hq, hp]

/-! ## The claims -/

/-- Claim C2 (corrected).  The claim speaks of pain phrases anywhere in
the candidate text (title plus optional body), but
`classify_reddit_content` matches its pain indicators against the title
only, so the amended claim is: for every candidate whose *title*
contains an explicit pain-point phrase, `classify` returns
`pain_point` with confidence 0.95 (which is at least 0.9), regardless of
what else the title or body contains — in particular even when the text
also contains a success phrase, because pain is checked first. -/
theorem c2_pain_title_amended (title selftext : String)
    (h : pain_indicators.any (fun i => strContains (pyLower title) i) = true) :
    classify_reddit_content title selftext = ("pain_point", 0.95) :=
  classify_of_pain title selftext h

/-- Witness for C2: a title holding both the pain phrase
`"why is it so hard"` and the success phrase `"got hired"` classifies as
pain-point. -/
theorem c2_pain_title_witness :
    pain_indicators.any
      (fun i => strContains (pyLower "Why is it so hard to get rehired after I got hired once") i) = true ∧
    strContains (pyLower "Why is it so hard to get rehired after I got hired once") "got hired" = true ∧
    classify_reddit_content "Why is it so hard to get rehired after I got hired once" "" =
      ("pain_point", 0.95) :=
  ⟨by decide, by decide, c2_pain_title_amended _ _ (by decide)⟩

/-- Counterexample to C2 as stated: the candidate text (title plus body)
contains the explicit pain phrase `"why is it so hard"`, but because the
phrase sits in the body and the code only scans the title, `classify`
returns `("motivation", 0.3)`, not pain-point with confidence at least
0.9. -/
theorem c2_pain_body_counterexample :
    strContains (pyLower ("Lost" ++ " " ++ "why is it so hard to find a job"))
      "why is it so hard" = true ∧
    classify_reddit_content "Lost" "why is it so hard to find a job" =
      ("motivation", 0.3) :=
  ⟨by decide, by with_unfolding_all decide⟩

/-- Claim C3 (corrected).  The claimed priority order (pain, success,
question, completion, all against the combined text) does not match the
code: `classify_reddit_content` checks pain indicators, then question
indicators, then a trailing question mark — all against the title only —
then Coursera success keywords, then general success terms gated on a
Coursera mention, then completion keywords against the combined text.
Hence question indicators beat success keywords: whenever a question
indicator occurs in the lowercased title, the result is
`("motivation", 0.9)` unless a pain indicator preempts it with
`("pain_point", 0.95)` — a success rule can never win against a
question indicator. -/
theorem c3_priority_order_amended (title selftext : String)
    (h : question_indicators.any (fun i => strContains (pyLower title) i) = true) :
    classify_reddit_content title selftext = ("pain_point", 0.95) ∨
    classify_reddit_content title selftext = ("motivation", 0.9) := by
  by_cases hp : pain_indicators.any (fun i => strContains (pyLower title) i) = true
  · exact Or.inl (classify_of_pain title selftext hp)
  · exact Or.inr (classify_of_question title selftext h
      (Bool.not_eq_true _ ▸ eq_false_of_ne_true hp))

/-- Witness for C3 at a concrete title containing a question indicator. -/
theorem c3_priority_order_witness :
    classify_reddit_content "Should I take another course" "" = ("pain_point", 0.95) ∨
    classify_reddit_content "Should I take another course" "" = ("motivation", 0.9) :=
  c3_priority_order_amended _ _ (by decide)

/-- Counterexample to C3 as stated: a title matching both the success
keyword `"coursera got me a job"` and the question indicator
`"should i"` resolves to `("motivation", 0.9)` — the question rule wins,
not the success rule as the claim requires. -/
theorem c3_success_vs_question_counterexample :
    strContains (pyLower "Should I believe coursera got me a job posts")
      "coursera got me a job" = true ∧
    strContains (pyLower "Should I believe coursera got me a job posts")
      "should i" = true ∧
    classify_reddit_content "Should I believe coursera got me a job posts" "" =
      ("motivation", 0.9) :=
  ⟨by decide, by decide, by with_unfolding_all decide⟩

/-- Claim C5 (corrected).  `load_existing_stories` performs no age-based
pruning at all: it returns the stored data unchanged (or the empty
default when the file is missing or unreadable), so a 29-day-old entry
is retained after load — but so is every entry older than 30 days. -/
theorem c5_load_no_pruning_amended (d : StoriesData) :
    load_existing_stories (some d) = d ∧
    load_existing_stories none = ⟨[], none, none⟩ :=
  ⟨rfl, rfl⟩

/-- Counterexample to C5 as stated: with wall-clock time
2025-10-12T00:00:00, the story found on 2025-09-11 (31 days earlier,
hence older than 30 days) is still present after a load operation, with
the same id as before — nothing was pruned. -/
theorem c5_pruning_counterexample :
    (load_existing_stories (some
      ⟨[⟨"oldstory", "u1", "t1", 20, [], "2025-09-11T00:00:00", "s", "d", "pending"⟩,
        ⟨"freshstory", "u2", "t2", 20, [], "2025-10-10T00:00:00", "s", "d", "pending"⟩],
       some "2025-10-12T00:00:00", none⟩)).stories.map (fun s => s.id) =
      ["oldstory", "freshstory"] :=
  rfl

/-- Claim C8 (corrected).  The two Reddit fetchers do return `None` when
a credential is absent, but `_fetch_meta_ads` with a blank `FB_TOKEN`
returns an explanatory placeholder string instead of `None`; no fetcher
raises, so the run continues either way. -/
theorem c8_missing_credentials_amended (fb_token cid csec : String)
    (net1 : String → Option String) (net2 net3 : String → String → Option String)
    (h1 : pyStrip fb_token = "") (h2 : cid = "" ∨ csec = "") :
    fetch_meta_ads fb_token net1 = some meta_pending_msg ∧
    fetch_reddit_insights cid csec net2 = none ∧
    fetch_reddit_story cid csec net3 = none := by
  refine ⟨?_, ?_, ?_⟩
  · simp [fetch_meta_ads, h1]
  · rcases h2 with h | h <;> subst h <;> simp [fetch_reddit_insights, pyStrip, pySpace]
  · rcases h2 with h | h <;> subst h <;> simp [fetch_reddit_story]

/-- Witness for C8 with empty credentials and arbitrary network
behaviour. -/
theorem c8_missing_credentials_witness :
    fetch_meta_ads "" (fun _ => none) = some meta_pending_msg ∧
    fetch_reddit_insights "" "x" (fun _ _ => none) = none ∧
    fetch_reddit_story "" "x" (fun _ _ => none) = none :=
  c8_missing_credentials_amended "" "" "x" _ _ _ (by decide) (Or.inl rfl)

/-- Counterexample to C8 as stated: with `FB_TOKEN` absent, the Meta ad
fetch does not return null — it returns the pending-access placeholder
string. -/
theorem c8_meta_ad_counterexample :
    fetch_meta_ads "" (fun _ => none) ≠ none ∧
    fetch_meta_ads "" (fun _ => none) = some meta_pending_msg :=
  ⟨by decide, by decide⟩

/-- Claim C9 (confirmed).  When all three fetchers return `None`,
`format_digest` returns `None` and `main` substitutes the literal
fallback string; and in every run the send step attempts the Slack
webhook first and attempts email exactly when the Slack send was
unavailable or failed. -/
theorem c9_fallback_and_send_order :
    format_digest [none, none, none] = none ∧
    main_digest [none, none, none] = fallback_digest ∧
    ∀ env : SendEnv, (main_send env).slack_attempted = true ∧
      (main_send env).email_attempted = !env.slack_ok := by
  refine ⟨rfl, rfl, ?_⟩
  rintro ⟨s, e⟩
  cases s <;> cases e <;> simp [main_send]

/-- Claim C1 (corrected).  Neither scorer applies a sentiment bonus or a
recency bonus.  The amended claim: every candidate selected by
`reddit_insight` has score `upvotes * confidence * category_weight`
(weight 10 for testimonials, 3 for pain points, 1 otherwise), and the
best score kept by `reddit_story` equals
`upvotes * sentiment * confidence`, tripled exactly when a completion
word occurs in the combined text; no factor depends on the candidate's
age. -/
theorem c1_score_formula_amended :
    (∀ (senti : String → Rat) (fetch : RSearch → List RPost) (c : RBest),
      (insight_run senti fetch).2 = some c →
      c.score = (c.upvotes : Rat) * c.confidence * tyWeight c.ty) ∧
    (∀ (senti : String → Rat) (fetch : String → List RPost) (sc : Rat) (p : RPost),
      story_run senti fetch = (sc, some p) → sc = story_score senti p) ∧
    (∀ (senti : String → Rat) (p : RPost),
      story_score senti p = (p.ups : Rat) * senti (p.title ++ " " ++ p.selftext) *
        (classify_reddit_content p.title p.selftext).2 *
        (if completion_words.any
            (fun w => strContains (pyLower (p.title ++ " " ++ p.selftext)) w)
         then (3 : Rat) else 1)) := by
  refine ⟨?_, ?_, ?_⟩
  · intro senti fetch c h
    exact (insight_run_good senti fetch c h).2
  · intro senti fetch sc p h
    have hinv := story_run_inv senti fetch
    rw [h] at hinv
    exact hinv p rfl
  · intro senti p
    simp only [story_score]
    split_ifs <;> ring

/-- Witness for C1 at concrete runs of both scorers. -/
theorem c1_score_formula_witness :
    (95 : Rat) = ((10 : Nat) : Rat) * (0.95 : Rat) * tyWeight "testimonial" ∧
    (6 : Rat) = story_score (fun _ => 0.5) ⟨"Finished my coursera specialization", "", 5⟩ :=
  ⟨c1_score_formula_amended.1 (fun _ => 0.6)
      (fun s => if s.subreddit == "Coursera" then
        [⟨"Coursera got me a job at last", "", 10⟩] else [])
      ⟨⟨"Coursera got me a job at last", "", 10⟩, "testimonial", "Coursera", 0.6, 10, 95, 0.95⟩
      (by with_unfolding_all decide),
   c1_score_formula_amended.2.1 (fun _ => 0.5)
      (fun q => if q == "finished%20coursera%20course" then
        [⟨"Finished my coursera specialization", "", 5⟩] else [])
      6 ⟨"Finished my coursera specialization", "", 5⟩
      (by with_unfolding_all decide)⟩

/-- Counterexample to C1 as stated: two `reddit_insight` runs whose only
difference is the analyser sentiment (0.45 versus 0.6) select the
identical candidate with the identical score 95 — the code's score reads
neither the sentiment nor any creation time — while the spec's formula
requires the two scores to differ (sentiment bonus 1.4x versus 1.8x,
both under a 1.3x recency bonus for a one-day-old item). -/
theorem c1_spec_score_counterexample :
    (insight_run (fun _ => 0.45)
      (fun s => if s.subreddit == "Coursera" then
        [⟨"Coursera got me a job at last", "", 10⟩] else [])).2 =
      some ⟨⟨"Coursera got me a job at last", "", 10⟩, "testimonial", "Coursera",
        0.45, 10, 95, 0.95⟩ ∧
    (insight_run (fun _ => 0.6)
      (fun s => if s.subreddit == "Coursera" then
        [⟨"Coursera got me a job at last", "", 10⟩] else [])).2 =
      some ⟨⟨"Coursera got me a job at last", "", 10⟩, "testimonial", "Coursera",
        0.6, 10, 95, 0.95⟩ ∧
    spec_score 10 0.95 10 0.45 1 ≠ spec_score 10 0.95 10 0.6 1 :=
  ⟨by with_unfolding_all decide, by with_unfolding_all decide,
   by with_unfolding_all decide⟩

/-- Claim C4 (confirmed).  Any candidate selected as `best_candidate` by
`reddit_insight` passed the upvote and sentiment thresholds of the
search that produced it; a candidate below either threshold is skipped
by `continue` before the score is even computed and can never be
selected. -/
theorem c4_thresholds_filter (senti : String → Rat) (fetch : RSearch → List RPost)
    (c : RBest) (h : (insight_run senti fetch).2 = some c) :
    searches.any (fun s => decide (c.ty = s.ty) && decide (s.min_ups ≤ c.upvotes) &&
      decide (s.min_sentiment ≤ c.sentiment)) = true := by
  obtain ⟨⟨s, hs, h1, h2, h3⟩, _⟩ := insight_run_good senti fetch c h
  rw [List.any_eq_true]
  exact ⟨s, hs, by simp [h1, h2, h3]⟩

/-- Witness for C4: a pain-point candidate with 60 upvotes and sentiment
-0.4 is selected and indeed meets the pain-point search's thresholds
(50 upvotes, -0.5 sentiment). -/
theorem c4_thresholds_filter_witness :
    searches.any (fun s => decide (("pain_point" : String) = s.ty) &&
      decide (s.min_ups ≤ 60) && decide (s.min_sentiment ≤ (-0.4 : Rat))) = true :=
  c4_thresholds_filter (fun _ => -0.4)
    (fun s => if s.ty == "pain_point" then
      [⟨"Why is it so hard to find entry level jobs", "", 60⟩] else [])
    ⟨⟨"Why is it so hard to find entry level jobs", "", 60⟩, "pain_point",
      "ITCareerQuestions", -0.4, 60, 171, 0.95⟩
    (by with_unfolding_all decide)

/-- Claim C6 (corrected).  `create_story_id` has no priority chain: it
always hashes `url + "_" + text` with MD5 and keeps the first 16 hex
characters.  The amended claim: the id is a 16-character string fully
determined by the link's url and text. -/
theorem c6_story_id_amended (l1 l2 : LinkData) (h1 : l1.url = l2.url)
    (h2 : l1.text = l2.text) :
    create_story_id l1 = create_story_id l2 ∧ (create_story_id l1).length = 16 := by
  constructor
  · unfold create_story_id
    rw [h1, h2]
  · rfl

/-- Witness for C6 at a concrete link. -/
theorem c6_story_id_witness :
    create_story_id ⟨"linkedin.com/posts/abc-123", "A"⟩ =
      create_story_id ⟨"linkedin.com/posts/abc-123", "A"⟩ ∧
    (create_story_id ⟨"linkedin.com/posts/abc-123", "A"⟩).length = 16 :=
  c6_story_id_amended _ _ rfl rfl

/-- Counterexample to C6 as stated: two links with the same permalink
(which embeds a parseable id under the claim's rule (2)) but different
snippet texts receive different ids, because the id is a hash of url and
text, not a source-native id, not an id parsed from the permalink, and
not a hash of title plus creation timestamp. -/
theorem c6_story_id_counterexample :
    (⟨"https://www.linkedin.com/posts/abc-123", "A"⟩ : LinkData).url =
      (⟨"https://www.linkedin.com/posts/abc-123", "B"⟩ : LinkData).url ∧
    create_story_id ⟨"https://www.linkedin.com/posts/abc-123", "A"⟩ ≠
      create_story_id ⟨"https://www.linkedin.com/posts/abc-123", "B"⟩ :=
  ⟨rfl, by decide⟩

/-- Claim C7 (confirmed).  Every story accepted by a run of
`process_new_stories` has its id recorded in the written-back store, and
a subsequent run started from that store never emits a new story with
that id again — the `story_id in existing_stories` check excludes it
from the new-story pool entirely. -/
theorem c7_dedup_round_trip (store : StoriesData) (emails1 emails2 : List EmailInfo)
    (now1 now2 : String) (i : String)
    (h : i ∈ (process_new_stories store emails1 now1).1.map (fun s => s.id)) :
    ((process_new_stories (process_new_stories store emails1 now1).2 emails2 now2).1.all
      (fun t => t.id != i)) = true := by
  obtain ⟨s, hs, hsi⟩ := List.mem_map.mp h
  have hm := process_marked (store.stories.foldl (fun d s => dinsert s d) []) emails1 now1
  have h1 : hasId (process_new_stories store emails1 now1).2.stories i = true :=
    hsi ▸ hm s hs
  obtain ⟨t, ht, hti⟩ := List.any_eq_true.mp h1
  have h0 : hasId ((process_new_stories store emails1 now1).2.stories.foldl
      (fun d s => dinsert s d) []) i = true := by
    have h2 := hasId_foldl_dinsert_of_mem
      (process_new_stories store emails1 now1).2.stories [] t ht
    have h3 : t.id = i := by simpa using hti
    exact h3 ▸ h2
  have he := process_excl i _ emails2 now2 h0
  rw [List.all_eq_true]
  intro t' ht'
  have h4 : t'.id ≠ i := he.2 t' ht'
  simpa using h4

/-- Witness for C7: a link accepted in a first run (score 20 from
`"landed a job"` plus the LinkedIn-post bonus) is excluded from the new
stories of a second run seeing the same link. -/
theorem c7_dedup_round_trip_witness :
    ((process_new_stories
        (process_new_stories ⟨[], none, none⟩
          [⟨"Google Alert - coursera", "Sun, 12 Oct 2025",
            [⟨"https://linkedin.com/posts/x", "i landed a job"⟩]⟩] "2025-10-12").2
        [⟨"Google Alert - coursera", "Mon, 13 Oct 2025",
          [⟨"https://linkedin.com/posts/x", "i landed a job"⟩]⟩] "2025-10-13").1.all
      (fun t => t.id != create_story_id ⟨"https://linkedin.com/posts/x", "i landed a job"⟩))
      = true :=
  c7_dedup_round_trip ⟨[], none, none⟩
    [⟨"Google Alert - coursera", "Sun, 12 Oct 2025",
      [⟨"https://linkedin.com/posts/x", "i landed a job"⟩]⟩]
    [⟨"Google Alert - coursera", "Mon, 13 Oct 2025",
      [⟨"https://linkedin.com/posts/x", "i landed a job"⟩]⟩]
    "2025-10-12" "2025-10-13"
    (create_story_id ⟨"https://linkedin.com/posts/x", "i landed a job"⟩)
    (by decide)

/-- Claim C10 (confirmed).  `process_new_stories` never removes a story:
every id present in the loaded store is still present in the data
written back, and every written-back story either was in the store
already or is a new story whose computed score is at least 15 — links
scoring below 15 are not recorded at all. -/
theorem c10_store_growth (store : StoriesData) (emails : List EmailInfo) (now : String) :
    (store.stories.all
      (fun s => hasId (process_new_stories store emails now).2.stories s.id)) = true ∧
    ((process_new_stories store emails now).2.stories.all
      (fun t => decide (t ∈ store.stories) ||
        (decide (15 ≤ t.story_score) &&
         (t.story_score == (analyze_story_potential ⟨t.url, t.text⟩).1)))) = true := by
  have h := process_grow store emails now
  constructor
  · rw [List.all_eq_true]
    intro s hs
    exact h.1 s hs
  · rw [List.all_eq_true]
    intro t ht
    rcases h.2 t ht with h1 | h1
    · simp [h1]
    · have h2 : 15 ≤ (analyze_story_potential ⟨t.url, t.text⟩).1 := h1.2 ▸ h1.1
      simp [h1.2, h2]
